import Mathlib

/-!
Verification of `main.py` from the `latex-diff-git` repository.

The program is a sequential CLI wrapper: it checks that `latexdiff` and
`git` are on the PATH, resolves the git repository root from the input
file's location, fetches the input file's content at two revisions,
stages the two contents into the fixed-name files `old_version.tex` and
`new_version.tex` in the working directory, runs `latexdiff` on them,
writes the captured diff to the output path (explicit, or derived as
`<base>-diff<ext>` next to the input), and finally removes the staged
files in a `finally` block.

The embedding models every external effect as an oracle packaged in an
`Env` structure (external processes as functions of their inputs, the
filesystem as a map from the literal path strings the program uses to
optional contents, exception points of `open`/`write`/`os.remove` as
oracles).  `run` is a direct transcription of the `__main__` block of
`main.py` (POSIX branch of `os.name`); the path manipulation functions
are transcriptions of the CPython `posixpath` implementations of
`normpath`, `abspath`, `dirname`, `basename`, `splitext`, `join` and
`relpath`, written over `List Char`.
-/

namespace LatexDiffGit

/-- Result of a completed subprocess (`subprocess.run` with captured
`stdout`/`stderr`): return code and the two captured streams. -/
structure ProcResult where
  returncode : Int
  stdout : String
  stderr : String
deriving Repr, DecidableEq

/-! ### Path helpers: transcriptions of CPython `posixpath` (POSIX branch) -/

/-- `str.split(sep)` for a single-character separator, Python semantics:
`"".split(c) = [""]`, empty pieces kept. -/
def splitOnChar (c : Char) : List Char → List (List Char)
  | [] => [[]]
  | x :: xs =>
    let r := splitOnChar c xs
    if x = c then [] :: r
    else
      match r with
      | h :: t => (x :: h) :: t
      | [] => [[x]]

/-- `posixpath.normpath`: collapse `//`, `.` and `..` components.  A path
starting with exactly two slashes keeps both (POSIX special case). -/
def normpath (p : List Char) : List Char :=
  if p = [] then ['.']
  else
    let initialSlashes : Nat :=
      match p with
      | '/' :: '/' :: '/' :: _ => 1
      | '/' :: '/' :: _ => 2
      | '/' :: _ => 1
      | _ => 0
    let comps := splitOnChar '/' p
    let newComps := comps.foldl
      (fun acc comp =>
        if comp = [] ∨ comp = ['.'] then acc
        else if comp ≠ ['.', '.'] ∨ (initialSlashes = 0 ∧ acc = [])
            ∨ acc.getLast? = some ['.', '.'] then
          acc ++ [comp]
        else acc.dropLast)
      []
    let res := List.replicate initialSlashes '/' ++ List.intercalate ['/'] newComps
    if res = [] then ['.'] else res

/-- `posixpath.join` restricted to two arguments, as used in the source. -/
def joinC (a b : List Char) : List Char :=
  if b.head? = some '/' then b
  else if a = [] ∨ a.getLast? = some '/' then a ++ b
  else a ++ '/' :: b

/-- `posixpath.abspath`: make absolute against the working directory,
then normalize. -/
def abspathC (cwd p : List Char) : List Char :=
  if p.head? = some '/' then normpath p else normpath (joinC cwd p)

/-- `posixpath.basename`: everything after the last slash. -/
def basenameC (p : List Char) : List Char :=
  (p.reverse.takeWhile (fun c => c ≠ '/')).reverse

/-- `posixpath.dirname`: everything up to the last slash, with trailing
slashes stripped unless the head is all slashes. -/
def dirnameC (p : List Char) : List Char :=
  let head := (p.reverse.dropWhile (fun c => c ≠ '/')).reverse
  if head ≠ [] ∧ head.any (fun c => c ≠ '/') then
    (head.reverse.dropWhile (fun c => c = '/')).reverse
  else head

/-- `posixpath.splitext`: split off the extension at the last dot of the
basename, unless every character before that dot is itself a dot
(leading-dot filenames keep their name whole). -/
def splitextC (p : List Char) : List Char × List Char :=
  let b := basenameC p
  let pre := (b.reverse.dropWhile (fun c => c ≠ '.')).reverse
  if pre = [] then (p, [])
  else
    let j := pre.length - 1
    if (b.take j).any (fun c => c ≠ '.') then
      (p.take (p.length - (b.length - j)), b.drop j)
    else (p, [])

/-- Element-wise common prefix length of two component lists
(`os.path.commonprefix` on two lists). -/
def commonPrefixLen : List (List Char) → List (List Char) → Nat
  | a :: as_, b :: bs => if a = b then commonPrefixLen as_ bs + 1 else 0
  | _, _ => 0

/-- `posixpath.relpath path start`: both are made absolute against the
working directory, split into non-empty components, and the result is
`..` for every uncovered start component followed by the remaining path
components. -/
def relpathC (cwd p start : List Char) : List Char :=
  let startList := (splitOnChar '/' (abspathC cwd start)).filter (fun c => c ≠ [])
  let pathList := (splitOnChar '/' (abspathC cwd p)).filter (fun c => c ≠ [])
  let i := commonPrefixLen startList pathList
  let rel := List.replicate (startList.length - i) ['.', '.'] ++ pathList.drop i
  if rel = [] then ['.'] else List.intercalate ['/'] rel

/-- Python `str.strip()`: drop whitespace from both ends. -/
def stripC (l : List Char) : List Char :=
  ((l.dropWhile Char.isWhitespace).reverse.dropWhile Char.isWhitespace).reverse

/-! String wrappers for the char-list path functions. -/

def joinPath (a b : String) : String := ⟨joinC a.data b.data⟩

def abspath (cwd p : String) : String := ⟨abspathC cwd.data p.data⟩

def basename (p : String) : String := ⟨basenameC p.data⟩

def dirname (p : String) : String := ⟨dirnameC p.data⟩

def splitextRoot (p : String) : String := ⟨(splitextC p.data).1⟩

def splitextExt (p : String) : String := ⟨(splitextC p.data).2⟩

def relpath (cwd p start : String) : String := ⟨relpathC cwd.data p.data start.data⟩

def strip (s : String) : String := ⟨stripC s.data⟩

/-! ### The environment of external effects -/

/-- All effects the program performs, modelled as oracles.  Filesystem
keys are the literal path strings the program passes to the OS (the two
staged names are working-directory-relative, the others absolute).
`Except.error msg` models a raised exception with text `msg`. -/
structure Env where
  /-- `subprocess.run(['which', command], ...)` (or `where` on Windows;
  the platform lookup command is inside the oracle). -/
  which : String → Except String ProcResult
  /-- `subprocess.check_output(['git','rev-parse','--show-toplevel'], cwd=fileDir)`;
  `none` models a raised `CalledProcessError`. -/
  revParse : String → Option String
  /-- `subprocess.check_output(['git','-C',root,'log','-1','--format=%s',commit])`;
  `none` models a raised `CalledProcessError`. -/
  logTitle : String → String → Option String
  /-- `subprocess.run(['git','-C',root,'show', commit ++ ":" ++ path], ...)`. -/
  gitShow : String → String → String → Except String ProcResult
  /-- `subprocess.run(['latexdiff', oldPath, newPath], ...)`, as a function
  of the two staged files' contents. -/
  latexdiff : String → String → Except String ProcResult
  /-- `os.getcwd()`, used by `os.path.abspath` for relative inputs. -/
  cwd : String
  /-- `open(path, 'w').write(content)`: `some msg` models a raised
  exception (the file is left truncated by the `open`). -/
  writeExc : String → Option String
  /-- `os.remove(path)`: `some msg` models a raised exception. -/
  removeExc : String → Option String
  /-- Initial filesystem: contents of the file at each path, `none` when
  absent.  `os.path.isfile` / `os.path.exists` are modelled as presence
  in this map (directories are not modelled). -/
  fs0 : String → Option String

/-- Parsed command-line arguments.  `new_commit_id` already carries the
parser default `HEAD`; `output = none` models an absent `-o`. -/
structure Args where
  input : String
  old_commit_id : String
  new_commit_id : String
  output : Option String
deriving Repr, DecidableEq

/-- External process invocations, in program order. -/
inductive Ev where
  | which (cmd : String)
  | revParse (dir : String)
  | gitLog (root commit : String)
  | gitShow (root commit path : String)
  | latexdiff (oldPath newPath : String)
deriving Repr, DecidableEq

/-- Observable result of a whole run: the process exit code, the lines
printed to stdout and stderr (one list entry per `print` call), the
final filesystem, and the external invocations performed. -/
structure Outcome where
  exitCode : Nat
  out : List String
  err : List String
  fs : String → Option String
  events : List Ev

def fsWrite (fs : String → Option String) (p c : String) : String → Option String :=
  fun q => if q = p then some c else fs q

def fsRemove (fs : String → Option String) (p : String) : String → Option String :=
  fun q => if q = p then none else fs q

/-! ### Transcription of the source functions -/

/-- `check_command_exists` (lines 7-25): returns whether the lookup
command exited 0; any exception prints a diagnostic to stderr and yields
`False`.  Result: (found?, stderr lines printed). -/
def check_command_exists (e : Env) (command : String) : Bool × List String :=
  match e.which command with
  | .ok r => (r.returncode = 0, [])
  | .error exc => (false, ["Error checking command " ++ command ++ ": " ++ exc])

/-- `get_repo_root_from_path` (lines 28-43): `git rev-parse
--show-toplevel` run in the directory of the absolute input path,
stripped; a `CalledProcessError` prints a diagnostic and exits 1
(modelled as the error branch carrying the stderr lines). -/
def get_repo_root_from_path (e : Env) (path : String) : Except (List String) String :=
  let file_dir := dirname (abspath e.cwd path)
  match e.revParse file_dir with
  | some out => .ok (strip out)
  | none => .error ["Error: Could not determine repository root for " ++ path ++
      ". Make sure the file is inside a git repository."]

/-- `get_commit_info` (lines 46-57): the one-line commit title, quoted,
or the placeholder on failure together with a stderr warning.
Result: (info string, stderr lines printed). -/
def get_commit_info (e : Env) (commit_id repo_root : String) : String × List String :=
  match e.logTitle repo_root commit_id with
  | some t => ("\"" ++ strip t ++ "\" (" ++ commit_id ++ ")", [])
  | none => ("(unknown title) (" ++ commit_id ++ ")",
      ["Warning: Could not retrieve commit title for " ++ commit_id ++ "."])

/-- `get_file_from_commit` (lines 60-78): `git show commit:path`; a
non-zero return code or a raised exception prints diagnostics and exits 1
(modelled as the error branch carrying the stderr lines). -/
def get_file_from_commit (e : Env) (commit_id file_path repo_root : String) :
    Except (List String) String :=
  match e.gitShow repo_root commit_id file_path with
  | .ok r =>
    if r.returncode ≠ 0 then
      .error ["Error: Could not retrieve file from commit " ++ commit_id ++ ".", r.stderr]
    else .ok r.stdout
  | .error exc => .error ["Error retrieving file from commit " ++ commit_id ++ ": " ++ exc]

/-- `with open(p, 'w') as f: f.write(c)`: on success the file holds `c`;
on a raised exception the file is left truncated.  Result: (new
filesystem, raised exception text if any). -/
def tryWrite (e : Env) (fs : String → Option String) (p c : String) :
    (String → Option String) × Option String :=
  match e.writeExc p with
  | none => (fsWrite fs p c, none)
  | some msg => (fsWrite fs p "", some msg)

/-- One iteration of the cleanup loop (lines 189-196): remove the temp
file if it exists; a raised exception during removal prints a warning.
Result: (new filesystem, stderr warning lines). -/
def cleanupOne (e : Env) (fs : String → Option String) (p : String) :
    (String → Option String) × List String :=
  if (fs p).isSome then
    match e.removeExc p with
    | none => (fsRemove fs p, [])
    | some msg =>
      (fs, ["Warning: Could not remove temporary file " ++ p ++ ": " ++ msg])
  else (fs, [])

/-- The `finally` block (lines 187-196): clean up both staged files. -/
def cleanup (e : Env) (fs : String → Option String) :
    (String → Option String) × List String :=
  let r1 := cleanupOne e fs "old_version.tex"
  let r2 := cleanupOne e r1.1 "new_version.tex"
  (r2.1, r1.2 ++ r2.2)

/-- `os.path.dirname(os.path.abspath(args.input))`, the cwd for
`git rev-parse` (line 30). -/
def fileDir (e : Env) (a : Args) : String := dirname (abspath e.cwd a.input)

/-- `input_abs` (line 125). -/
def inputAbs (e : Env) (a : Args) : String := abspath e.cwd a.input

/-- `repo_root_abs` (line 122), given the stripped `rev-parse` output. -/
def rootAbs (e : Env) (root : String) : String := abspath e.cwd root

/-- `relative_input` (line 126). -/
def relInput (e : Env) (a : Args) (rra : String) : String :=
  relpath e.cwd (inputAbs e a) rra

/-- The derived default output path (lines 172-175):
`join(dirname(input_abs), base ++ "-diff" ++ ext)`. -/
def defaultOutput (p : String) : String :=
  joinPath (dirname p) (splitextRoot (basename p) ++ "-diff" ++ splitextExt (basename p))

/-- The effective output path: `args.output` unless it is absent or the
empty string (Python `if not args.output`), in which case the derived
sibling name is used. -/
def effectiveOutput (a : Args) (input_abs : String) : String :=
  match a.output with
  | some o => if o = "" then defaultOutput input_abs else o
  | none => defaultOutput input_abs

/-- The `__main__` block (lines 81-196), POSIX branch, after successful
argument parsing.  Every `sys.exit(1)` or uncaught exception yields exit
code 1; reaching the end yields 0.  `sys.exit(1)` raised inside the
`try` block still runs the `finally` cleanup, as in Python. -/
def run (e : Env) (a : Args) : Outcome :=
  let cL := check_command_exists e "latexdiff"
  if cL.1 = false then
    { exitCode := 1, out := [], err := cL.2 ++ ["Error: latexdiff command not found."],
      fs := e.fs0, events := [.which "latexdiff"] }
  else
    let cG := check_command_exists e "git"
    if cG.1 = false then
      { exitCode := 1, out := [],
        err := cL.2 ++ cG.2 ++ ["Error: git command not found."],
        fs := e.fs0, events := [.which "latexdiff", .which "git"] }
    else
      match get_repo_root_from_path e a.input with
      | .error msgs =>
        { exitCode := 1, out := [], err := cL.2 ++ cG.2 ++ msgs, fs := e.fs0,
          events := [.which "latexdiff", .which "git", .revParse (fileDir e a)] }
      | .ok repo_root =>
        let repo_root_abs := rootAbs e repo_root
        let input_abs := inputAbs e a
        let relative_input := relInput e a repo_root_abs
        let file_full_path := joinPath repo_root_abs relative_input
        if (e.fs0 file_full_path).isSome = false then
          { exitCode := 1, out := [],
            err := cL.2 ++ cG.2 ++ ["Error: The file " ++ a.input ++
              " does not exist in the repository at " ++ repo_root_abs ++ "."],
            fs := e.fs0,
            events := [.which "latexdiff", .which "git", .revParse (fileDir e a)] }
        else
          let infoOld := get_commit_info e a.old_commit_id repo_root_abs
          let infoNew := get_commit_info e a.new_commit_id repo_root_abs
          let header := ["\nLatex diff between:",
            "  Old Version -> Commit " ++ infoOld.1,
            "  New Version -> Commit " ++ infoNew.1 ++ "\n"]
          let events1 := [Ev.which "latexdiff", Ev.which "git", Ev.revParse (fileDir e a),
            Ev.gitLog repo_root_abs a.old_commit_id, Ev.gitLog repo_root_abs a.new_commit_id]
          match get_file_from_commit e a.old_commit_id relative_input repo_root_abs with
          | .error msgs =>
            { exitCode := 1, out := header, err := infoOld.2 ++ infoNew.2 ++ msgs,
              fs := e.fs0,
              events := events1 ++
                [.gitShow repo_root_abs a.old_commit_id relative_input] }
          | .ok old_file_content =>
            match get_file_from_commit e a.new_commit_id relative_input repo_root_abs with
            | .error msgs =>
              { exitCode := 1, out := header, err := infoOld.2 ++ infoNew.2 ++ msgs,
                fs := e.fs0,
                events := events1 ++
                  [.gitShow repo_root_abs a.old_commit_id relative_input,
                   .gitShow repo_root_abs a.new_commit_id relative_input] }
            | .ok new_file_content =>
              let events2 := events1 ++
                [Ev.gitShow repo_root_abs a.old_commit_id relative_input,
                 Ev.gitShow repo_root_abs a.new_commit_id relative_input]
              let w1 := tryWrite e e.fs0 "old_version.tex" old_file_content
              match w1.2 with
              | some msg =>
                let fin := cleanup e w1.1
                { exitCode := 1, out := header,
                  err := infoOld.2 ++ infoNew.2 ++
                    ["Error during processing: " ++ msg] ++ fin.2,
                  fs := fin.1, events := events2 }
              | none =>
                let w2 := tryWrite e w1.1 "new_version.tex" new_file_content
                match w2.2 with
                | some msg =>
                  let fin := cleanup e w2.1
                  { exitCode := 1, out := header,
                    err := infoOld.2 ++ infoNew.2 ++
                      ["Error during processing: " ++ msg] ++ fin.2,
                    fs := fin.1, events := events2 }
                | none =>
                  match e.latexdiff old_file_content new_file_content with
                  | .error msg =>
                    let fin := cleanup e w2.1
                    { exitCode := 1, out := header ++ ["Applying latex diff..."],
                      err := infoOld.2 ++ infoNew.2 ++
                        ["Error during processing: " ++ msg] ++ fin.2,
                      fs := fin.1,
                      events := events2 ++
                        [.latexdiff "old_version.tex" "new_version.tex"] }
                  | .ok r =>
                    if r.returncode ≠ 0 then
                      let fin := cleanup e w2.1
                      { exitCode := 1, out := header ++ ["Applying latex diff..."],
                        err := infoOld.2 ++ infoNew.2 ++
                          ["Error: latexdiff failed.", r.stderr] ++ fin.2,
                        fs := fin.1,
                        events := events2 ++
                          [.latexdiff "old_version.tex" "new_version.tex"] }
                    else
                      let outPath := effectiveOutput a input_abs
                      let w3 := tryWrite e w2.1 outPath r.stdout
                      match w3.2 with
                      | some msg =>
                        let fin := cleanup e w3.1
                        { exitCode := 1, out := header ++ ["Applying latex diff..."],
                          err := infoOld.2 ++ infoNew.2 ++
                            ["Error during processing: " ++ msg] ++ fin.2,
                          fs := fin.1,
                          events := events2 ++
                            [.latexdiff "old_version.tex" "new_version.tex"] }
                      | none =>
                        let fin := cleanup e w3.1
                        { exitCode := 0,
                          out := header ++ ["Applying latex diff...", "Done.",
                            "Output is available at '" ++ outPath ++ "'."],
                          err := infoOld.2 ++ infoNew.2 ++ fin.2,
                          fs := fin.1,
                          events := events2 ++
                            [.latexdiff "old_version.tex" "new_version.tex"] }

/-! ### The argparse surface (lines 82-110) -/

/-- One argparse option: short flag, long flag, whether `required=True`,
and the declared default value. -/
structure ArgOpt where
  short : String
  long : String
  required : Bool
  defaultVal : Option String
deriving Repr, DecidableEq

/-- The options registered on the parser in lines 84-108 of `main.py`
(argparse's automatic help flag aside): `--input` (short `-i`, required),
`--old_commit_id` (short `-co`, required), `--new_commit_id` (short
`-cn`, optional, default `HEAD`), `--output` (short `-o`, optional). -/
def cliOptions : List ArgOpt :=
  [⟨"-i", "--input", true, none⟩,
   ⟨"-co", "--old_commit_id", true, none⟩,
   ⟨"-cn", "--new_commit_id", false, some "HEAD"⟩,
   ⟨"-o", "--output", false, none⟩]

/-- Success of every step of the pipeline: both tools found, repository
root resolved, the file present at the computed path, both revision
fetches succeeded, both staging writes succeeded, `latexdiff` returned 0,
and the output write succeeded.  Mirrors the branch structure of `run`. -/
def successConds (e : Env) (a : Args) : Prop :=
  (check_command_exists e "latexdiff").1 = true ∧
  (check_command_exists e "git").1 = true ∧
  match get_repo_root_from_path e a.input with
  | .error _ => False
  | .ok root =>
    (e.fs0 (joinPath (rootAbs e root) (relInput e a (rootAbs e root)))).isSome = true ∧
    match get_file_from_commit e a.old_commit_id
        (relInput e a (rootAbs e root)) (rootAbs e root) with
    | .error _ => False
    | .ok oldC =>
      match get_file_from_commit e a.new_commit_id
          (relInput e a (rootAbs e root)) (rootAbs e root) with
      | .error _ => False
      | .ok newC =>
        e.writeExc "old_version.tex" = none ∧
        e.writeExc "new_version.tex" = none ∧
        match e.latexdiff oldC newC with
        | .error _ => False
        | .ok r =>
          r.returncode = 0 ∧ e.writeExc (effectiveOutput a (inputAbs e a)) = none

/-! ### Concrete example world, used by the witnesses -/

/-- A fully successful environment: both tools found, repository root
`/repo`, input tracked, both revisions present, `latexdiff` succeeds. -/
def exEnv : Env where
  which := fun _ => .ok ⟨0, "", ""⟩
  revParse := fun d => if d = "/repo" then some "/repo\n" else none
  logTitle := fun _ c => if c = "c1" then some "first commit\n" else some "head commit\n"
  gitShow := fun _ c _ =>
    if c = "c1" then .ok ⟨0, "OLD", ""⟩ else .ok ⟨0, "NEW", ""⟩
  latexdiff := fun o n => .ok ⟨0, "DIFF(" ++ o ++ "," ++ n ++ ")", ""⟩
  cwd := "/repo"
  writeExc := fun _ => none
  removeExc := fun _ => none
  fs0 := fun p => if p = "/repo/doc.tex" then some "SRC" else none

/-- Arguments with an explicit output path. -/
def exArgs : Args := ⟨"doc.tex", "c1", "HEAD", some "/repo/out.tex"⟩

/-- Arguments without an output path (derived sibling name is used). -/
def exArgsNoOut : Args := ⟨"doc.tex", "c1", "HEAD", none⟩

/-- Like `exEnv`, but `os.remove` raises on `old_version.tex`. -/
def exEnvRemoveFail : Env :=
  { exEnv with removeExc := fun p => if p = "old_version.tex" then some "EPERM" else none }

/-- Like `exEnv`, but `latexdiff` exits 1 with an error on stderr. -/
def exEnvDiffFail : Env :=
  { exEnv with latexdiff := fun _ _ => .ok ⟨1, "", "latexdiff blew up"⟩ }

/-- Like `exEnv`, but `git show` fails for revision `c1`. -/
def exEnvFetchFail : Env :=
  { exEnv with gitShow := fun _ c _ =>
      if c = "c1" then .ok ⟨128, "", "fatal: bad revision"⟩ else .ok ⟨0, "NEW", ""⟩ }

/-- Like `exEnv`, but `which latexdiff` exits 1. -/
def exEnvNoLatexdiff : Env :=
  { exEnv with which := fun c =>
      if c = "latexdiff" then .ok ⟨1, "", ""⟩ else .ok ⟨0, "", ""⟩ }

/-- Like `exEnv`, but `which git` exits 1. -/
def exEnvNoGit : Env :=
  { exEnv with which := fun c =>
      if c = "git" then .ok ⟨1, "", ""⟩ else .ok ⟨0, "", ""⟩ }

/-- Like `exEnv`, but the input file is absent from the filesystem. -/
def exEnvNoFile : Env := { exEnv with fs0 := fun _ => none }

/-- Like `exEnv`, but every commit-title lookup raises. -/
def exEnvNoTitle : Env := { exEnv with logTitle := fun _ _ => none }

/-! ### Helper lemmas -/

theorem fsWrite_self (fs : String → Option String) (p c : String) :
    fsWrite fs p c p = some c := by
  simp [fsWrite]

theorem fsWrite_other (fs : String → Option String) (p c q : String) (h : q ≠ p) :
    fsWrite fs p c q = fs q := by
  simp [fsWrite, h]

theorem cleanupOne_fst_self (e : Env) (fs : String → Option String) (p : String)
    (h : e.removeExc p = none) : (cleanupOne e fs p).1 p = none := by
  unfold cleanupOne
  split
  · rw [h]
    simp [fsRemove]
  · rename_i hAbs
    exact Option.not_isSome_iff_eq_none.mp hAbs

theorem cleanupOne_fst_other (e : Env) (fs : String → Option String) (p q : String)
    (h : q ≠ p) : (cleanupOne e fs p).1 q = fs q := by
  unfold cleanupOne
  split
  · split <;> simp [fsRemove, h]
  · rfl

theorem cleanup_fst_old (e : Env) (fs : String → Option String)
    (h : e.removeExc "old_version.tex" = none) :
    (cleanup e fs).1 "old_version.tex" = none := by
  unfold cleanup
  rw [cleanupOne_fst_other e _ "new_version.tex" "old_version.tex" (by decide)]
  exact cleanupOne_fst_self e fs "old_version.tex" h

theorem cleanup_fst_new (e : Env) (fs : String → Option String)
    (h : e.removeExc "new_version.tex" = none) :
    (cleanup e fs).1 "new_version.tex" = none := by
  unfold cleanup
  exact cleanupOne_fst_self e _ "new_version.tex" h

theorem cleanup_fst_other (e : Env) (fs : String → Option String) (q : String)
    (h1 : q ≠ "old_version.tex") (h2 : q ≠ "new_version.tex") :
    (cleanup e fs).1 q = fs q := by
  unfold cleanup
  rw [cleanupOne_fst_other e _ "new_version.tex" q h2,
    cleanupOne_fst_other e fs "old_version.tex" q h1]

set_option maxHeartbeats 3200000 in
/-- The exit code and the sequence of external invocations of a run do
not depend on the commit-title oracle or on the removal oracle (the
former only feeds printed text, the latter only the cleanup warnings and
the final filesystem). -/
theorem run_indep_aux (e1 e2 : Env) (a : Args)
    (hw : e1.which = e2.which) (hrp : e1.revParse = e2.revParse)
    (hgs : e1.gitShow = e2.gitShow) (hld : e1.latexdiff = e2.latexdiff)
    (hcw : e1.cwd = e2.cwd) (hwe : e1.writeExc = e2.writeExc)
    (hf : e1.fs0 = e2.fs0) :
    (run e1 a).exitCode = (run e2 a).exitCode ∧
    (run e1 a).events = (run e2 a).events := by
  obtain ⟨w1, rp1, lt1, gs1, ld1, cw1, we1, re1, f1⟩ := e1
  obtain ⟨w2, rp2, lt2, gs2, ld2, cw2, we2, re2, f2⟩ := e2
  simp only at hw hrp hgs hld hcw hwe hf
  subst hw hrp hgs hld hcw hwe hf
  refine ⟨?_, ?_⟩ <;>
  · simp only [run, check_command_exists, get_repo_root_from_path,
      get_file_from_commit, tryWrite, fileDir, inputAbs, rootAbs, relInput,
      effectiveOutput]
    repeat' split
    all_goals rfl

/-- A `tryWrite` raises exactly when the write oracle raises on the path. -/
theorem tryWrite_snd (e : Env) (fs : String → Option String) (p c : String) :
    (tryWrite e fs p c).2 = e.writeExc p := by
  unfold tryWrite
  cases e.writeExc p <;> rfl

/-! ### Claim theorems -/

/-- C5: if either required external tool (`latexdiff` or `git`) is not
found on the PATH, the program prints a diagnostic naming the missing
tool to stderr and exits with status 1; the filesystem is untouched and
the only external invocations are the PATH lookups themselves (no
repository access). -/
theorem claim_C5_missing_tool (e1 e2 : Env) (a : Args)
    (h1 : (check_command_exists e1 "latexdiff").1 = false)
    (h2 : (check_command_exists e2 "latexdiff").1 = true)
    (h3 : (check_command_exists e2 "git").1 = false) :
    ((run e1 a).exitCode = 1 ∧
      "Error: latexdiff command not found." ∈ (run e1 a).err ∧
      (run e1 a).fs = e1.fs0 ∧
      (run e1 a).events = [Ev.which "latexdiff"]) ∧
    ((run e2 a).exitCode = 1 ∧
      "Error: git command not found." ∈ (run e2 a).err ∧
      (run e2 a).fs = e2.fs0 ∧
      (run e2 a).events = [Ev.which "latexdiff", Ev.which "git"]) := by
  constructor
  · simp only [run, h1]
    simp
  · simp only [run, h2, h3]
    simp

/-- C6: if the target file is absent at the repository-relative path
joined under the resolved repository root, the program exits 1, the
filesystem is unchanged (no diff output file is produced), and the diff
tool is never invoked. -/
theorem claim_C6_missing_file (e : Env) (a : Args) (root : String)
    (hL : (check_command_exists e "latexdiff").1 = true)
    (hG : (check_command_exists e "git").1 = true)
    (hroot : get_repo_root_from_path e a.input = .ok root)
    (hfile : e.fs0 (joinPath (rootAbs e root) (relInput e a (rootAbs e root))) = none) :
    (run e a).exitCode = 1 ∧
    (run e a).fs = e.fs0 ∧
    ∀ x y, Ev.latexdiff x y ∉ (run e a).events := by
  simp only [run, hL, hG, hroot, hfile]
  simp

/-- C8: the run is deterministic: two environments presenting identical
tool behaviours (all oracles equal as functions of their inputs) and an
identical initial filesystem produce identical outcomes, byte for byte. -/
theorem claim_C8_determinism (e1 e2 : Env) (a : Args)
    (hw : e1.which = e2.which) (hrp : e1.revParse = e2.revParse)
    (hlt : e1.logTitle = e2.logTitle) (hgs : e1.gitShow = e2.gitShow)
    (hld : e1.latexdiff = e2.latexdiff) (hcw : e1.cwd = e2.cwd)
    (hwe : e1.writeExc = e2.writeExc) (hre : e1.removeExc = e2.removeExc)
    (hf : e1.fs0 = e2.fs0) :
    run e1 a = run e2 a := by
  obtain ⟨w1, rp1, lt1, gs1, ld1, cw1, we1, re1, f1⟩ := e1
  obtain ⟨w2, rp2, lt2, gs2, ld2, cw2, we2, re2, f2⟩ := e2
  simp only at hw hrp hlt hgs hld hcw hwe hre hf
  subst hw hrp hlt hgs hld hcw hwe hre hf
  rfl

/-- C9 (amended): the command-line surface recognizes exactly a required
input path, a required old revision, a new revision defaulting to
`HEAD`, and an optional output path; it has neither a repository
directory option nor a debug flag. -/
theorem claim_C9_surface :
    (∃ o ∈ cliOptions, o.long = "--input" ∧ o.required = true) ∧
    (∃ o ∈ cliOptions, o.long = "--old_commit_id" ∧ o.required = true) ∧
    (∃ o ∈ cliOptions, o.long = "--new_commit_id" ∧ o.required = false ∧
      o.defaultVal = some "HEAD") ∧
    (∃ o ∈ cliOptions, o.long = "--output" ∧ o.required = false) ∧
    cliOptions.map ArgOpt.long =
      ["--input", "--old_commit_id", "--new_commit_id", "--output"] := by
  decide

/-- C9, counterexample to the claim as stated: the parser registers only
four options and none of them is a debug flag; in particular no option
for verbose diagnostic printing and no repository-directory option
exists, contradicting the claimed surface. -/
theorem claim_C9_counterexample :
    "--debug" ∉ cliOptions.map ArgOpt.long ∧ cliOptions.length = 4 := by
  decide

/-- C2: if `latexdiff` exits with a non-zero status, the program exits 1,
prints the tool's captured stderr to its own stderr, and touches no file
other than the two staged temp names: in particular the output diff file
is neither created nor written. -/
theorem claim_C2_diff_failure (e : Env) (a : Args) (root oldC newC : String)
    (r : ProcResult)
    (hL : (check_command_exists e "latexdiff").1 = true)
    (hG : (check_command_exists e "git").1 = true)
    (hroot : get_repo_root_from_path e a.input = .ok root)
    (hfile : (e.fs0 (joinPath (rootAbs e root) (relInput e a (rootAbs e root)))).isSome
      = true)
    (hOld : get_file_from_commit e a.old_commit_id (relInput e a (rootAbs e root))
      (rootAbs e root) = .ok oldC)
    (hNew : get_file_from_commit e a.new_commit_id (relInput e a (rootAbs e root))
      (rootAbs e root) = .ok newC)
    (hwOld : e.writeExc "old_version.tex" = none)
    (hwNew : e.writeExc "new_version.tex" = none)
    (hdiff : e.latexdiff oldC newC = .ok r)
    (hrc : r.returncode ≠ 0) :
    (run e a).exitCode = 1 ∧
    r.stderr ∈ (run e a).err ∧
    ∀ p, p ≠ "old_version.tex" → p ≠ "new_version.tex" →
      (run e a).fs p = e.fs0 p := by
  refine ⟨?_, ?_, ?_⟩
  · simp only [run, tryWrite, hL, hG, hroot, hfile, hOld, hNew, hwOld, hwNew, hdiff]
    simp [hrc]
  · simp only [run, tryWrite, hL, hG, hroot, hfile, hOld, hNew, hwOld, hwNew, hdiff]
    simp [hrc]
  · intro p hp1 hp2
    simp only [run, tryWrite, hL, hG, hroot, hfile, hOld, hNew, hwOld, hwNew, hdiff]
    simp [hrc, cleanup_fst_other, fsWrite, hp1, hp2]

/-- C3 (amended): on a fully successful run the captured diff text is
written exactly to the effective output path (the explicit one when
given, otherwise the sibling of the input named by inserting `-diff`
before the extension), and standard output carries exactly the fixed
progress lines — the diff text itself is never printed to stdout. -/
theorem claim_C3_output (e : Env) (a : Args) (root oldC newC : String)
    (r : ProcResult)
    (hL : (check_command_exists e "latexdiff").1 = true)
    (hG : (check_command_exists e "git").1 = true)
    (hroot : get_repo_root_from_path e a.input = .ok root)
    (hfile : (e.fs0 (joinPath (rootAbs e root) (relInput e a (rootAbs e root)))).isSome
      = true)
    (hOld : get_file_from_commit e a.old_commit_id (relInput e a (rootAbs e root))
      (rootAbs e root) = .ok oldC)
    (hNew : get_file_from_commit e a.new_commit_id (relInput e a (rootAbs e root))
      (rootAbs e root) = .ok newC)
    (hwOld : e.writeExc "old_version.tex" = none)
    (hwNew : e.writeExc "new_version.tex" = none)
    (hdiff : e.latexdiff oldC newC = .ok r)
    (hrc : r.returncode = 0)
    (hwOut : e.writeExc (effectiveOutput a (inputAbs e a)) = none)
    (hsepOld : effectiveOutput a (inputAbs e a) ≠ "old_version.tex")
    (hsepNew : effectiveOutput a (inputAbs e a) ≠ "new_version.tex") :
    (run e a).exitCode = 0 ∧
    (run e a).fs (effectiveOutput a (inputAbs e a)) = some r.stdout ∧
    (run e a).out =
      ["\nLatex diff between:",
       "  Old Version -> Commit " ++ (get_commit_info e a.old_commit_id (rootAbs e root)).1,
       "  New Version -> Commit " ++ (get_commit_info e a.new_commit_id (rootAbs e root)).1
         ++ "\n",
       "Applying latex diff...", "Done.",
       "Output is available at '" ++ effectiveOutput a (inputAbs e a) ++ "'."] ∧
    (a.output = none →
      effectiveOutput a (inputAbs e a) =
        joinPath (dirname (inputAbs e a))
          (splitextRoot (basename (inputAbs e a)) ++ "-diff"
            ++ splitextExt (basename (inputAbs e a)))) := by
  refine ⟨?_, ?_, ?_, ?_⟩
  · simp only [run, tryWrite, hL, hG, hroot, hfile, hOld, hNew, hwOld, hwNew, hdiff,
      hwOut, hrc]
    simp
  · simp only [run, tryWrite, hL, hG, hroot, hfile, hOld, hNew, hwOld, hwNew, hdiff,
      hwOut, hrc]
    simp [cleanup_fst_other, fsWrite, hsepOld, hsepNew]
  · simp only [run, tryWrite, hL, hG, hroot, hfile, hOld, hNew, hwOld, hwNew, hdiff,
      hwOut, hrc]
    simp
  · intro h
    simp [effectiveOutput, defaultOutput, h]

/-- C4: every revision-content fetch failure is fatal: whether the fetch
of the old or of the new revision fails, the program exits 1 and every
diagnostic line of the failed fetch — which carries the git tool's own
captured stderr on a non-zero exit, or the raised exception's text —
is printed to stderr. -/
theorem claim_C4_fetch_failure (e : Env) (a : Args) (root : String)
    (msgs : List String)
    (hL : (check_command_exists e "latexdiff").1 = true)
    (hG : (check_command_exists e "git").1 = true)
    (hroot : get_repo_root_from_path e a.input = .ok root)
    (hfile : (e.fs0 (joinPath (rootAbs e root) (relInput e a (rootAbs e root)))).isSome
      = true) :
    ((get_file_from_commit e a.old_commit_id (relInput e a (rootAbs e root))
        (rootAbs e root) = .error msgs →
      (run e a).exitCode = 1 ∧ ∀ m ∈ msgs, m ∈ (run e a).err)) ∧
    (∀ oldC, get_file_from_commit e a.old_commit_id (relInput e a (rootAbs e root))
        (rootAbs e root) = .ok oldC →
      get_file_from_commit e a.new_commit_id (relInput e a (rootAbs e root))
        (rootAbs e root) = .error msgs →
      (run e a).exitCode = 1 ∧ ∀ m ∈ msgs, m ∈ (run e a).err) ∧
    (∀ cid fp rr (r : ProcResult), e.gitShow rr cid fp = .ok r → r.returncode ≠ 0 →
      get_file_from_commit e cid fp rr =
        .error ["Error: Could not retrieve file from commit " ++ cid ++ ".", r.stderr]) ∧
    (∀ cid fp rr msg, e.gitShow rr cid fp = .error msg →
      get_file_from_commit e cid fp rr =
        .error ["Error retrieving file from commit " ++ cid ++ ": " ++ msg]) := by
  refine ⟨?_, ?_, ?_, ?_⟩
  · intro hOldErr
    simp only [run, hL, hG, hroot, hfile, hOldErr]
    refine ⟨by simp, ?_⟩
    intro m hm
    simp [List.mem_append, hm]
  · intro oldC hOldOk hNewErr
    simp only [run, hL, hG, hroot, hfile, hOldOk, hNewErr]
    refine ⟨by simp, ?_⟩
    intro m hm
    simp [List.mem_append, hm]
  · intro cid fp rr r hr hrc
    simp [get_file_from_commit, hr, hrc]
  · intro cid fp rr msg hr
    simp [get_file_from_commit, hr]

set_option maxHeartbeats 3200000 in
/-- C1 (amended): provided the two fixed staging names are absent when
the program starts, each of them is absent again after any run on which
its removal does not raise; a removal failure during the cleanup loop is
reported as a stderr warning whenever the file was present, and the
removal oracle never influences the program's exit code. -/
theorem claim_C1_temp_cleanup (e : Env) (a : Args)
    (h0 : e.fs0 "old_version.tex" = none) (h1 : e.fs0 "new_version.tex" = none) :
    (e.removeExc "old_version.tex" = none → (run e a).fs "old_version.tex" = none) ∧
    (e.removeExc "new_version.tex" = none → (run e a).fs "new_version.tex" = none) ∧
    (∀ fs msg, e.removeExc "old_version.tex" = some msg →
      (fs "old_version.tex").isSome = true →
      ("Warning: Could not remove temporary file old_version.tex: " ++ msg)
        ∈ (cleanup e fs).2) ∧
    (∀ rex, (run { e with removeExc := rex } a).exitCode = (run e a).exitCode) := by
  refine ⟨?_, ?_, ?_, ?_⟩
  · intro h
    simp only [run]
    repeat' split
    all_goals simp_all [cleanup_fst_old]
  · intro h
    simp only [run]
    repeat' split
    all_goals simp_all [cleanup_fst_new]
  · intro fs msg hsome hpres
    simp [cleanup, cleanupOne, hpres, hsome]
  · intro rex
    obtain ⟨w, rp, lt, gs, ld, cw, we, re, f0⟩ := e
    exact (run_indep_aux ⟨w, rp, lt, gs, ld, cw, we, rex, f0⟩
      ⟨w, rp, lt, gs, ld, cw, we, re, f0⟩ a rfl rfl rfl rfl rfl rfl rfl).1

/-- C10: a failed one-line commit-title lookup is never fatal: the
lookup substitutes the placeholder string and prints a stderr warning,
and the commit-title oracle has no influence on the program's exit code
or on the pipeline of external invocations that follows. -/
theorem claim_C10_title_failure_nonfatal (e1 e2 : Env) (a : Args) (c root : String)
    (hw : e1.which = e2.which) (hrp : e1.revParse = e2.revParse)
    (hgs : e1.gitShow = e2.gitShow) (hld : e1.latexdiff = e2.latexdiff)
    (hcw : e1.cwd = e2.cwd) (hwe : e1.writeExc = e2.writeExc)
    (hf : e1.fs0 = e2.fs0)
    (hfail : e1.logTitle root c = none) :
    get_commit_info e1 c root =
      ("(unknown title) (" ++ c ++ ")",
       ["Warning: Could not retrieve commit title for " ++ c ++ "."]) ∧
    (run e1 a).exitCode = (run e2 a).exitCode ∧
    (run e1 a).events = (run e2 a).events := by
  refine ⟨?_, ?_, ?_⟩
  · simp [get_commit_info, hfail]
  · exact (run_indep_aux e1 e2 a hw hrp hgs hld hcw hwe hf).1
  · exact (run_indep_aux e1 e2 a hw hrp hgs hld hcw hwe hf).2

set_option maxHeartbeats 3200000 in
/-- C7: the exit code is always 0 or 1, and it is 0 exactly when every
step of the pipeline succeeds (tools found, repository root resolved,
file present, both fetches, both staging writes, the diff invocation
with return code 0, and the output write). -/
theorem claim_C7_exit_codes (e : Env) (a : Args) :
    ((run e a).exitCode = 0 ↔ successConds e a) ∧
    ((run e a).exitCode = 0 ∨ (run e a).exitCode = 1) := by
  simp only [run, successConds, tryWrite_snd]
  repeat' split
  all_goals simp_all [Option.isSome_iff_ne_none]

/-! ### Witnesses and counterexamples -/

/-- C1, counterexample to the claim as stated: when `os.remove` raises
on `old_version.tex` during an otherwise successful run, the staged file
still exists after the program exits (with exit code 0 and a stderr
warning), so the temp files do not vanish on every execution. -/
theorem claim_C1_counterexample :
    (run exEnvRemoveFail exArgs).exitCode = 0 ∧
    (run exEnvRemoveFail exArgs).fs "old_version.tex" = some "OLD" ∧
    "Warning: Could not remove temporary file old_version.tex: EPERM"
      ∈ (run exEnvRemoveFail exArgs).err := by
  decide

/-- C1, witness: on the concrete successful world both staged names are
absent after the run. -/
theorem claim_C1_witness :
    (run exEnv exArgs).fs "old_version.tex" = none ∧
    (run exEnv exArgs).fs "new_version.tex" = none :=
  ⟨(claim_C1_temp_cleanup exEnv exArgs (by decide) (by decide)).1 rfl,
   (claim_C1_temp_cleanup exEnv exArgs (by decide) (by decide)).2.1 rfl⟩

/-- C2, witness: a concrete run where `latexdiff` exits 1 ends with exit
code 1, relays the tool's stderr, and leaves no output file. -/
theorem claim_C2_witness :
    (run exEnvDiffFail exArgs).exitCode = 1 ∧
    "latexdiff blew up" ∈ (run exEnvDiffFail exArgs).err ∧
    (run exEnvDiffFail exArgs).fs "/repo/out.tex" = none := by
  have h := claim_C2_diff_failure exEnvDiffFail exArgs "/repo" "OLD" "NEW"
    ⟨1, "", "latexdiff blew up"⟩ (by decide) (by decide) rfl (by decide)
    rfl rfl rfl rfl rfl (by decide)
  refine ⟨h.1, h.2.1, ?_⟩
  rw [h.2.2 "/repo/out.tex" (by decide) (by decide)]
  decide

/-- C3, counterexample to the claim as stated: a successful run with an
explicit output path does print to standard output (the fixed progress
lines), so "nothing is printed to standard output" fails. -/
theorem claim_C3_counterexample :
    (run exEnv exArgs).exitCode = 0 ∧
    (run exEnv exArgs).fs "/repo/out.tex" = some "DIFF(OLD,NEW)" ∧
    (run exEnv exArgs).out ≠ [] := by
  decide

/-- C3, witness: without an output path the diff text lands in the
derived sibling file `/repo/doc-diff.tex`. -/
theorem claim_C3_witness :
    (run exEnv exArgsNoOut).fs (effectiveOutput exArgsNoOut (inputAbs exEnv exArgsNoOut))
      = some "DIFF(OLD,NEW)" ∧
    effectiveOutput exArgsNoOut (inputAbs exEnv exArgsNoOut) = "/repo/doc-diff.tex" := by
  have h := claim_C3_output exEnv exArgsNoOut "/repo" "OLD" "NEW"
    ⟨0, "DIFF(OLD,NEW)", ""⟩ (by decide) (by decide) rfl (by decide)
    rfl rfl rfl rfl rfl rfl rfl (by decide) (by decide)
  exact ⟨h.2.1, by decide⟩

/-- C4, witness: a failing `git show` for the old revision is fatal and
its stderr is relayed. -/
theorem claim_C4_witness :
    (run exEnvFetchFail exArgs).exitCode = 1 ∧
    "fatal: bad revision" ∈ (run exEnvFetchFail exArgs).err := by
  have h := (claim_C4_fetch_failure exEnvFetchFail exArgs "/repo"
    ["Error: Could not retrieve file from commit c1.", "fatal: bad revision"]
    (by decide) (by decide) rfl (by decide)).1 rfl
  exact ⟨h.1, h.2 "fatal: bad revision" (by decide)⟩

/-- C5, witness: concrete environments missing `latexdiff` respectively
`git` exit 1 with the naming diagnostic and perform no repository
access. -/
theorem claim_C5_witness :
    (run exEnvNoLatexdiff exArgs).exitCode = 1 ∧
    "Error: latexdiff command not found." ∈ (run exEnvNoLatexdiff exArgs).err ∧
    (run exEnvNoLatexdiff exArgs).events = [Ev.which "latexdiff"] ∧
    (run exEnvNoGit exArgs).exitCode = 1 ∧
    "Error: git command not found." ∈ (run exEnvNoGit exArgs).err ∧
    (run exEnvNoGit exArgs).events = [Ev.which "latexdiff", Ev.which "git"] := by
  have h := claim_C5_missing_tool exEnvNoLatexdiff exEnvNoGit exArgs
    (by decide) (by decide) (by decide)
  exact ⟨h.1.1, h.1.2.1, h.1.2.2.2, h.2.1, h.2.2.1, h.2.2.2.2⟩

/-- C6, witness: with the input file absent the concrete run exits 1 and
leaves the filesystem untouched. -/
theorem claim_C6_witness :
    (run exEnvNoFile exArgs).exitCode = 1 ∧
    (run exEnvNoFile exArgs).fs = exEnvNoFile.fs0 := by
  have h := claim_C6_missing_file exEnvNoFile exArgs "/repo"
    (by decide) (by decide) rfl (by decide)
  exact ⟨h.1, h.2.1⟩

/-- C8, witness: the determinism theorem applied at a concrete world. -/
theorem claim_C8_witness : run exEnv exArgs = run exEnv exArgs :=
  claim_C8_determinism exEnv exEnv exArgs rfl rfl rfl rfl rfl rfl rfl rfl rfl

/-- C10, witness: a failing title lookup on the concrete world yields the
placeholder and the warning, and the exit code matches the run whose
title lookups succeed. -/
theorem claim_C10_witness :
    get_commit_info exEnvNoTitle "c1" "/repo" =
      ("(unknown title) (c1)", ["Warning: Could not retrieve commit title for c1."]) ∧
    (run exEnvNoTitle exArgs).exitCode = (run exEnv exArgs).exitCode := by
  have h := claim_C10_title_failure_nonfatal exEnvNoTitle exEnv exArgs "c1" "/repo"
    rfl rfl rfl rfl rfl rfl rfl rfl
  exact ⟨h.1.trans (by decide), h.2.1⟩

end LatexDiffGit
